import Mathlib

/-!
Verification of the finance forecasting and autopilot-rule projection engine
of the MultipleAppProject repository (Express + Prisma API, file
`src/services/api/src/app.ts`, finance router).

Monetary amounts and percentages are JavaScript numbers in the source; we
embed them as rationals (`ℚ`), and request horizons as rationals before
validation (JSON numbers) and integers after. Each definition mirrors a
specific piece of the source, cited in its doc comment.
-/

namespace Finance

/-- Embeds the `Transaction` record (table `Transaction` in the Prisma
migration). Only the signed `amount` field is read by the forecast handler;
`description`, `category` and `occurredAt` are opaque strings it never
inspects, carried for fidelity. -/
structure Transaction where
  description : String
  amount : ℚ
  category : String
  occurredAt : String
deriving Repr, DecidableEq

/-- Embeds the `AutopilotRule` record (table `AutopilotRule` in the Prisma
migration): `accountId` is nullable (`"accountId" TEXT` with an
`ON DELETE SET NULL` foreign key to `FinanceAccount`). -/
structure AutopilotRule where
  name : String
  percentage : ℚ
  destination : String
  active : Bool
  ownerId : String
  accountId : Option String
deriving Repr, DecidableEq

/-- Embeds the `FinanceAccount` record as materialized by the forecast
handler: `prisma.financeAccount.findMany` with
`include: \x7b transactions: true, autopilotRules: true \x7d`, so the account
arrives with its transactions and its autopilot rules (the rules whose
`accountId` foreign key equals this account's id) attached. -/
structure FinanceAccount where
  id : String
  ownerId : String
  balance : ℚ
  transactions : List Transaction
  autopilotRules : List AutopilotRule
deriving Repr, DecidableEq

/-- Embeds the per-account record returned by the forecast handler
(`\x7b accountId, balance, projected, horizonDays, autopilot \x7d`). -/
structure ForecastRow where
  accountId : String
  balance : ℚ
  projected : ℚ
  horizonDays : ℤ
  autopilot : ℚ
deriving Repr, DecidableEq

/-- Embeds `account.transactions.filter((t) => t.amount > 0).reduce((sum, t) => sum + t.amount, 0)`
from the forecast handler (app.ts lines 165–167). -/
def inflows (ts : List Transaction) : ℚ :=
  (ts.filter (fun t => t.amount > 0)).foldl (fun sum t => sum + t.amount) 0

/-- Embeds `account.transactions.filter((t) => t.amount < 0).reduce((sum, t) => sum + t.amount, 0)`
from the forecast handler (app.ts lines 168–170). -/
def outflows (ts : List Transaction) : ℚ :=
  (ts.filter (fun t => t.amount < 0)).foldl (fun sum t => sum + t.amount) 0

/-- Embeds the autopilot reduce of the forecast handler (app.ts lines
171–174): `rules.reduce((sum, rule) => \x7b if (!rule.active) return sum;
return sum + account.balance * rule.percentage; \x7d, 0)`. -/
def autopilot (balance : ℚ) (rules : List AutopilotRule) : ℚ :=
  rules.foldl (fun sum rule => if !rule.active then sum else sum + balance * rule.percentage) 0

/-- The divisor-protected average used by the handler:
`(inflows + outflows) / Math.max(account.transactions.length, 1)`. -/
def netPerTransaction (account : FinanceAccount) : ℚ :=
  (inflows account.transactions + outflows account.transactions)
    / (max account.transactions.length 1 : ℕ)

/-- Embeds the body of `accounts.map(...)` in the forecast handler (app.ts
lines 164–183): one `ForecastRow` per account, with
`projected = balance + ((inflows + outflows) / Math.max(len, 1)) * horizonDays - autopilot`. -/
def forecastAccount (account : FinanceAccount) (horizonDays : ℤ) : ForecastRow :=
  let autopilotTotal := autopilot account.balance account.autopilotRules
  let projected :=
    account.balance + netPerTransaction account * (horizonDays : ℚ) - autopilotTotal
  { accountId := account.id
    balance := account.balance
    projected := projected
    horizonDays := horizonDays
    autopilot := autopilotTotal }

/-- Embeds the forecast request validator (app.ts lines 155–158):
`z.object(\x7b horizonDays: z.number().int().positive().max(180).default(30) \x7d)`.
The input is the `horizonDays` field of the JSON body: `none` when the
field is absent (zod then supplies the default 30), otherwise the JSON
number received. Returns the validated horizon or a validation error. -/
def horizonDaysParse (field : Option ℚ) : Except String ℤ :=
  match field with
  | none => .ok 30
  | some h =>
    if h.den ≠ 1 then .error "Expected integer"
    else if ¬ 0 < h then .error "Number must be greater than 0"
    else if ¬ h ≤ 180 then .error "Number must be less than or equal to 180"
    else .ok h.num

/-- Embeds `ruleSchema` together with the `POST /autopilot-rules` handler
(app.ts lines 126–151): `accountId` optional, `name` a string of length at
least 3, `percentage` validated by `z.number().min(0).max(1)`,
`destination` any string, `active` optional defaulting to `true`
(`data.active ?? true`); `ownerId` comes from the authenticated user. -/
def createAutopilotRule (ownerId : String) (accountId : Option String) (name : String)
    (percentage : ℚ) (destination : String) (active : Option Bool) :
    Except String AutopilotRule :=
  if name.length < 3 then .error "String must contain at least 3 characters"
  else if ¬ 0 ≤ percentage then .error "Number must be greater than or equal to 0"
  else if ¬ percentage ≤ 1 then .error "Number must be less than or equal to 1"
  else .ok
    { name := name
      percentage := percentage
      destination := destination
      active := active.getD true
      ownerId := ownerId
      accountId := accountId }

/-- Materialization of the Prisma relation used by the forecast handler:
an account's `autopilotRules` are exactly the rules of the store whose
`accountId` foreign key equals the account's id (per the
`AutopilotRule_accountId_fkey` constraint in the migration). -/
def accountRules (rules : List AutopilotRule) (accId : String) : List AutopilotRule :=
  rules.filter (fun r => r.accountId = some accId)

/- Specification-side definitions, written from the words of the spec
(section 4.1) for the refinement claim C1. They are deliberately phrased as
the spec phrases them — sums over filtered amount lists — to be compared
against the source embedding above. -/

/-- Spec wording: `inflowTotal` is the sum of transaction amounts where
amount > 0. -/
def specInflowTotal (ts : List Transaction) : ℚ :=
  ((ts.map (fun t => t.amount)).filter (fun a => 0 < a)).sum

/-- Spec wording: `outflowTotal` is the sum of transaction amounts where
amount < 0. -/
def specOutflowTotal (ts : List Transaction) : ℚ :=
  ((ts.map (fun t => t.amount)).filter (fun a => a < 0)).sum

/-- Spec wording: `autopilotAccrual` is the sum over active rules of
`balance × percentage`. -/
def specAutopilotAccrual (balance : ℚ) (rules : List AutopilotRule) : ℚ :=
  ((rules.filter (fun r => r.active)).map (fun r => balance * r.percentage)).sum

/-- Spec wording: `projectedBalance = balance + netPerTransaction × horizonDays − autopilotAccrual`
with `netPerTransaction = (inflowTotal + outflowTotal) / max(transactionCount, 1)`. -/
def specProjected (account : FinanceAccount) (horizonDays : ℤ) : ℚ :=
  account.balance
    + (specInflowTotal account.transactions + specOutflowTotal account.transactions)
      / (max account.transactions.length 1 : ℕ) * (horizonDays : ℚ)
    - specAutopilotAccrual account.balance account.autopilotRules

/-- The demo checking account of the sample seed data
(`src/services/api/prisma/seed.ts` lines 122–127): balance `4200.32` with
transactions `+2400` (Freelance Retainer) and `-950` (Studio Rent), taken
here with no active autopilot rules as in spec property P6. -/
def seedAccount : FinanceAccount :=
  { id := "acct-demo"
    ownerId := "user-demo"
    balance := 4200.32
    transactions :=
      [ { description := "Freelance Retainer", amount := 2400, category := "Income",
          occurredAt := "t-2d" }
      , { description := "Studio Rent", amount := -950, category := "Housing",
          occurredAt := "t-1d" } ]
    autopilotRules := [] }

/-- The account snapshot the forecast handler receives for a given account,
materialized from a store of rules: its `autopilotRules` are the rules of
the store linked to it by the `accountId` foreign key. -/
def materializeAccount (accId ownerId : String) (balance : ℚ)
    (ts : List Transaction) (store : List AutopilotRule) : FinanceAccount :=
  { id := accId
    ownerId := ownerId
    balance := balance
    transactions := ts
    autopilotRules := accountRules store accId }

/- Helper lemmas relating the source folds to the spec sums. -/

lemma foldl_add_amount (ts : List Transaction) (a : ℚ) :
    ts.foldl (fun sum t => sum + t.amount) a = a + (ts.map (fun t => t.amount)).sum := by
  induction ts generalizing a with
  | nil => simp
  | cons t ts ih => simp [List.foldl_cons, ih, add_assoc]

lemma inflows_eq_spec (ts : List Transaction) : inflows ts = specInflowTotal ts := by
  simp only [inflows, specInflowTotal, foldl_add_amount, zero_add, List.filter_map]
  rfl

lemma outflows_eq_spec (ts : List Transaction) : outflows ts = specOutflowTotal ts := by
  simp only [outflows, specOutflowTotal, foldl_add_amount, zero_add, List.filter_map]
  rfl

lemma autopilot_foldl_general (balance : ℚ) (rules : List AutopilotRule) (a : ℚ) :
    rules.foldl (fun sum rule => if !rule.active then sum else sum + balance * rule.percentage) a
      = a + ((rules.filter (fun r => r.active)).map (fun r => balance * r.percentage)).sum := by
  induction rules generalizing a with
  | nil => simp
  | cons r rules ih =>
    simp only [Bool.not_eq_true', List.foldl_cons] at ih ⊢
    by_cases h : r.active <;> simp [h, ih, add_assoc]

lemma autopilot_eq_spec (balance : ℚ) (rules : List AutopilotRule) :
    autopilot balance rules = specAutopilotAccrual balance rules := by
  unfold autopilot specAutopilotAccrual
  rw [autopilot_foldl_general, zero_add]

lemma autopilot_insert (balance : ℚ) (pre post : List AutopilotRule) (r : AutopilotRule) :
    autopilot balance (pre ++ r :: post)
      = autopilot balance (pre ++ post)
        + (if r.active then balance * r.percentage else 0) := by
  rw [autopilot_eq_spec, autopilot_eq_spec]
  unfold specAutopilotAccrual
  by_cases h : r.active <;>
    simp [List.filter_append, List.filter_cons, h, List.sum_append, add_assoc, add_comm,
      add_left_comm]

lemma filter_pos_add_filter_neg_sum (l : List ℚ) :
    (l.filter (fun a => 0 < a)).sum + (l.filter (fun a => a < 0)).sum = l.sum := by
  induction l with
  | nil => simp
  | cons a l ih =>
    rcases lt_trichotomy a 0 with h | h | h
    · have h1 : ¬ (0 < a) := not_lt.mpr h.le
      simp only [List.filter_cons, decide_eq_true_eq, h, h1, if_true, if_false,
        List.sum_cons]
      linarith [ih]
    · subst h
      simp [List.filter_cons, ih]
    · have h1 : ¬ (a < 0) := not_lt.mpr h.le
      simp only [List.filter_cons, decide_eq_true_eq, h, h1, if_true, if_false,
        List.sum_cons]
      linarith [ih]

/-- C1: for every account snapshot and every valid horizon, the projected
value returned by the forecast handler equals the formula of the spec:
`balance + ((inflowTotal + outflowTotal) / max(transactionCount, 1)) * horizonDays - autopilotAccrual`,
with `inflowTotal` the sum of positive amounts, `outflowTotal` the sum of
negative amounts, `transactionCount` the number of transactions, and
`autopilotAccrual` the sum over active rules of `balance * percentage`. -/
theorem C1_forecast_matches_spec (account : FinanceAccount) (horizonDays : ℤ)
    (_hlo : 1 ≤ horizonDays) (_hhi : horizonDays ≤ 180) :
    (forecastAccount account horizonDays).projected = specProjected account horizonDays := by
  unfold forecastAccount specProjected netPerTransaction
  rw [inflows_eq_spec, outflows_eq_spec, autopilot_eq_spec]

/-- Witness for C1 at the seed account and the default horizon 30. -/
theorem C1_forecast_matches_spec_witness :
    (forecastAccount seedAccount 30).projected = specProjected seedAccount 30 :=
  C1_forecast_matches_spec seedAccount 30 (by decide) (by decide)

/-- C2: the forecast request validator accepts `horizonDays` iff it is an
integer with `0 < horizonDays ≤ 180` (so 0, -5, 181 and non-integers are
rejected with a validation error, 180 is accepted), and an absent field
defaults to 30. -/
theorem C2_horizon_validation (q : ℚ) :
    ((horizonDaysParse (some q)).isOk = true ↔ (q.den = 1 ∧ 0 < q ∧ q ≤ 180)) ∧
    horizonDaysParse none = .ok 30 := by
  constructor
  · unfold horizonDaysParse
    by_cases h1 : q.den = 1 <;> by_cases h2 : 0 < q <;> by_cases h3 : q ≤ 180 <;>
      simp [h1, h2, h3, Except.isOk, Except.toBool]
  · rfl

/-- Witness for C2 at the boundary value 180, which is accepted. -/
theorem C2_horizon_validation_witness :
    (((horizonDaysParse (some 180)).isOk = true ↔
        ((180 : ℚ).den = 1 ∧ 0 < (180 : ℚ) ∧ (180 : ℚ) ≤ 180)) ∧
      horizonDaysParse none = .ok 30) ∧
    (horizonDaysParse (some 180)).isOk = true ∧
    (horizonDaysParse (some 181)).isOk = false ∧
    (horizonDaysParse (some 0)).isOk = false ∧
    (horizonDaysParse (some (-5))).isOk = false ∧
    (horizonDaysParse (some (1/2))).isOk = false :=
  ⟨C2_horizon_validation 180, by decide, by decide, by decide, by decide, by
    have h : (1/2 : ℚ).den = 2 := by norm_num
    simp [horizonDaysParse, h, Except.isOk, Except.toBool]⟩

/-- C5: on the seed scenario (balance 4200.32, transactions +2400 and -950,
horizon 30, no active rules) the handler returns exactly
`projected = 4200.32 + 725 * 30 - 0 = 25950.32`, with
`netPerTransaction = (2400 - 950) / 2 = 725`. -/
theorem C5_seed_scenario :
    (forecastAccount seedAccount 30).projected = 25950.32 ∧
    netPerTransaction seedAccount = 725 ∧
    (forecastAccount seedAccount 30).autopilot = 0 := by
  refine ⟨?_, ?_, ?_⟩ <;>
    norm_num [forecastAccount, seedAccount, netPerTransaction, inflows, outflows, autopilot,
      List.filter, List.foldl]

lemma forecastAccount_projected (account : FinanceAccount) (h : ℤ) :
    (forecastAccount account h).projected
      = account.balance + netPerTransaction account * (h : ℚ)
        - autopilot account.balance account.autopilotRules := rfl

lemma forecastAccount_autopilot_val (account : FinanceAccount) (h : ℤ) :
    (forecastAccount account h).autopilot
      = autopilot account.balance account.autopilotRules := rfl

/-- C3 counterexample: a rule whose percentage 1/2 passes the creation
validation (`0 ≤ p ≤ 1`), applied to an account with balance -100, yields a
strictly negative autopilot accrual, contradicting the claim for arbitrary
balances. -/
theorem C3_negative_balance_counterexample :
    (createAutopilotRule "u1" (some "a1") "Vault Sweep" (1/2) "vault" (some true)).isOk
        = true ∧
    autopilot (-100)
      [{ name := "Vault Sweep", percentage := 1/2, destination := "vault",
         active := true, ownerId := "u1", accountId := some "a1" }] < 0 := by
  constructor
  · have h3 : ¬ ("Vault Sweep".length < 3) := by decide
    have h0 : (0 : ℚ) ≤ 1/2 := by norm_num
    have h1 : (1/2 : ℚ) ≤ 1 := by norm_num
    unfold createAutopilotRule
    rw [if_neg h3, if_neg (not_not_intro h0), if_neg (not_not_intro h1)]
    rfl
  · norm_num [autopilot, List.foldl]

/-- C3 amended: for accounts whose balance is non-negative, and rules whose
percentages pass the rule-creation validation, the autopilot accrual is
never negative (for a negative balance it can be negative, as the
counterexample shows). -/
theorem C3_accrual_nonneg (balance : ℚ) (rules : List AutopilotRule)
    (hb : 0 ≤ balance) (hp : ∀ r ∈ rules, 0 ≤ r.percentage) :
    0 ≤ autopilot balance rules := by
  rw [autopilot_eq_spec]
  unfold specAutopilotAccrual
  apply List.sum_nonneg
  intro x hx
  simp only [List.mem_map, List.mem_filter] at hx
  obtain ⟨r, ⟨hr, _⟩, rfl⟩ := hx
  exact mul_nonneg hb (hp r hr)

/-- Witness for C3 amended at balance 100 and one validated half-percentage
rule. -/
theorem C3_accrual_nonneg_witness :
    0 ≤ autopilot 100
      [{ name := "Vault Sweep", percentage := 1/2, destination := "vault",
         active := true, ownerId := "u1", accountId := some "a1" }] :=
  C3_accrual_nonneg 100 _ (by norm_num)
    (by intro r hr; simp only [List.mem_singleton] at hr; subst hr; norm_num)

/-- C4 counterexample: the rule validator is `z.number().min(0).max(1)`, so
a percentage of exactly 0 — outside the claimed interval (0, 1] — is
accepted at rule creation. -/
theorem C4_zero_percentage_accepted :
    (createAutopilotRule "u1" none "Vault Sweep" 0 "vault" none).isOk = true ∧
    ¬ (0 < (0 : ℚ)) := by
  constructor
  · have h3 : ¬ ("Vault Sweep".length < 3) := by decide
    simp [createAutopilotRule, h3, Except.isOk, Except.toBool]
  · norm_num

/-- C4 amended: with the other fields valid, rule creation accepts a
percentage p iff 0 ≤ p ≤ 1 (the closed interval [0, 1], not (0, 1]):
percentages outside [0, 1] are rejected at the creation boundary, and the
forecast engine performs no re-validation. -/
theorem C4_percentage_validation (ownerId : String) (accountId : Option String)
    (name : String) (p : ℚ) (destination : String) (active : Option Bool)
    (hname : ¬ name.length < 3) :
    (createAutopilotRule ownerId accountId name p destination active).isOk = true
      ↔ (0 ≤ p ∧ p ≤ 1) := by
  unfold createAutopilotRule
  by_cases h0 : 0 ≤ p <;> by_cases h1 : p ≤ 1 <;>
    simp [hname, h0, h1, Except.isOk, Except.toBool]

/-- Witness for C4 amended at a concrete accepted rule with percentage 1. -/
theorem C4_percentage_validation_witness :
    (createAutopilotRule "u1" none "Vault Sweep" 1 "vault" none).isOk = true
      ↔ (0 ≤ (1 : ℚ) ∧ (1 : ℚ) ≤ 1) :=
  C4_percentage_validation "u1" none "Vault Sweep" 1 "vault" none (by decide)

/-- C6 counterexample: on an account with balance 0 (accepted by the
account validator, which allows any number), adding an active rule with
percentage 1/2 > 0 leaves the projection unchanged — there is no strict
decrease. -/
theorem C6_zero_balance_counterexample :
    (0 : ℚ) < 1/2 ∧
    ¬ ((forecastAccount
          { id := "a1", ownerId := "u1", balance := 0, transactions := [],
            autopilotRules :=
              [{ name := "Vault Sweep", percentage := 1/2, destination := "vault",
                 active := true, ownerId := "u1", accountId := some "a1" }] } 30).projected
        < (forecastAccount
          { id := "a1", ownerId := "u1", balance := 0, transactions := [],
            autopilotRules := [] } 30).projected) := by
  constructor
  · norm_num
  · norm_num [forecastAccount, netPerTransaction, inflows, outflows, autopilot,
      List.filter, List.foldl]

/-- C6 amended: inserting an active rule with percentage p, holding
everything else fixed, changes the projection by exactly -(balance × p);
when the balance is positive and p > 0 this is a strict decrease (for
balance 0 the projection is unchanged and for negative balance it
increases, as the counterexample shows). -/
theorem C6_rule_monotonicity (account : FinanceAccount) (r : AutopilotRule)
    (pre post : List AutopilotRule) (h : ℤ)
    (hsplit : account.autopilotRules = pre ++ post) (hactive : r.active = true) :
    ((forecastAccount { account with autopilotRules := pre ++ r :: post } h).projected
        = (forecastAccount account h).projected - account.balance * r.percentage) ∧
    (0 < account.balance → 0 < r.percentage →
      (forecastAccount { account with autopilotRules := pre ++ r :: post } h).projected
        < (forecastAccount account h).projected) := by
  have hshift :
      (forecastAccount { account with autopilotRules := pre ++ r :: post } h).projected
        = (forecastAccount account h).projected - account.balance * r.percentage := by
    rw [forecastAccount_projected, forecastAccount_projected]
    have hnet : netPerTransaction { account with autopilotRules := pre ++ r :: post }
        = netPerTransaction account := rfl
    rw [hnet]
    show account.balance + netPerTransaction account * (h : ℚ)
        - autopilot account.balance (pre ++ r :: post) = _
    rw [autopilot_insert, hactive, if_pos rfl, hsplit]
    ring
  refine ⟨hshift, fun hb hp => ?_⟩
  rw [hshift]
  exact sub_lt_self _ (mul_pos hb hp)

/-- Witness for C6 amended: a positive-balance account gains a rule with
percentage 1/2 and its projection drops by exactly 100 × (1/2). -/
theorem C6_rule_monotonicity_witness :
    ((forecastAccount
        { id := "a1", ownerId := "u1", balance := 100, transactions := [],
          autopilotRules :=
            ([] : List AutopilotRule) ++
              { name := "Vault Sweep", percentage := 1/2, destination := "vault",
                active := true, ownerId := "u1", accountId := some "a1" } :: [] } 30).projected
      = (forecastAccount
          { id := "a1", ownerId := "u1", balance := 100, transactions := [],
            autopilotRules := [] } 30).projected - 100 * (1/2)) ∧
    (0 < (100 : ℚ) → 0 < (1/2 : ℚ) →
      (forecastAccount
        { id := "a1", ownerId := "u1", balance := 100, transactions := [],
          autopilotRules :=
            ([] : List AutopilotRule) ++
              { name := "Vault Sweep", percentage := 1/2, destination := "vault",
                active := true, ownerId := "u1", accountId := some "a1" } :: [] } 30).projected
      < (forecastAccount
          { id := "a1", ownerId := "u1", balance := 100, transactions := [],
            autopilotRules := [] } 30).projected) :=
  C6_rule_monotonicity
    { id := "a1", ownerId := "u1", balance := 100, transactions := [],
      autopilotRules := [] }
    { name := "Vault Sweep", percentage := 1/2, destination := "vault",
      active := true, ownerId := "u1", accountId := some "a1" }
    [] [] 30 rfl rfl

/-- C7: for a fixed account snapshot and any two valid horizons, the
difference of the projections is `netPerTransaction × (H2 − H1)`, and the
returned autopilot value does not depend on the horizon. -/
theorem C7_linear_in_horizon (account : FinanceAccount) (h1 h2 : ℤ)
    (_h1lo : 1 ≤ h1) (_h1hi : h1 ≤ 180) (_h2lo : 1 ≤ h2) (_h2hi : h2 ≤ 180) :
    ((forecastAccount account h2).projected - (forecastAccount account h1).projected
        = netPerTransaction account * ((h2 : ℚ) - (h1 : ℚ))) ∧
    (forecastAccount account h2).autopilot = (forecastAccount account h1).autopilot := by
  constructor
  · rw [forecastAccount_projected, forecastAccount_projected]
    ring
  · rfl

/-- Witness for C7 at the seed account with horizons 30 and 60. -/
theorem C7_linear_in_horizon_witness :
    ((forecastAccount seedAccount 60).projected - (forecastAccount seedAccount 30).projected
        = netPerTransaction seedAccount * ((60 : ℚ) - (30 : ℚ))) ∧
    (forecastAccount seedAccount 60).autopilot = (forecastAccount seedAccount 30).autopilot :=
  C7_linear_in_horizon seedAccount 30 60 (by decide) (by decide) (by decide) (by decide)

/-- C8: a rule with `active = false` is inert — the forecast row produced
with it present anywhere in the rule list is identical (same projected
value and same autopilot value) to the row produced with it removed,
regardless of its percentage. -/
theorem C8_inactive_rule_inert (account : FinanceAccount) (r : AutopilotRule)
    (pre post : List AutopilotRule) (h : ℤ)
    (hsplit : account.autopilotRules = pre ++ post) (hinactive : r.active = false) :
    forecastAccount { account with autopilotRules := pre ++ r :: post } h
      = forecastAccount account h := by
  have hauto : autopilot account.balance (pre ++ r :: post)
      = autopilot account.balance account.autopilotRules := by
    rw [autopilot_insert, hinactive, hsplit]
    simp
  unfold forecastAccount
  have hnet : netPerTransaction { account with autopilotRules := pre ++ r :: post }
      = netPerTransaction account := rfl
  rw [hnet]
  show ForecastRow.mk account.id account.balance
      (account.balance + netPerTransaction account * (h : ℚ)
        - autopilot account.balance (pre ++ r :: post)) h
      (autopilot account.balance (pre ++ r :: post)) = _
  rw [hauto]

/-- Witness for C8: an inactive rule with percentage 1 on the seed account
changes nothing. -/
theorem C8_inactive_rule_inert_witness :
    forecastAccount
        { seedAccount with autopilotRules :=
            ([] : List AutopilotRule) ++
              { name := "Vault Sweep", percentage := 1, destination := "vault",
                active := false, ownerId := "u1", accountId := some "a1" } :: [] } 30
      = forecastAccount seedAccount 30 :=
  C8_inactive_rule_inert seedAccount
    { name := "Vault Sweep", percentage := 1, destination := "vault",
      active := false, ownerId := "u1", accountId := some "a1" }
    [] [] 30 rfl rfl

/-- C9: transactions with amount exactly 0 are excluded from both the
inflow and outflow filters yet still counted in the divisor, so
`netPerTransaction` always equals the sum of all amounts divided by
`max(transactionCount, 1)`, and prepending a zero-amount transaction leaves
both filtered sums unchanged while growing the count by one. -/
theorem C9_zero_amount_transactions (account : FinanceAccount) (t : Transaction)
    (hzero : t.amount = 0) :
    (netPerTransaction account
        = ((account.transactions.map (fun t => t.amount)).sum)
          / (max account.transactions.length 1 : ℕ)) ∧
    inflows (t :: account.transactions) = inflows account.transactions ∧
    outflows (t :: account.transactions) = outflows account.transactions ∧
    (t :: account.transactions).length = account.transactions.length + 1 := by
  refine ⟨?_, ?_, ?_, rfl⟩
  · unfold netPerTransaction
    rw [inflows_eq_spec, outflows_eq_spec]
    unfold specInflowTotal specOutflowTotal
    rw [filter_pos_add_filter_neg_sum]
  · have h1 : ¬ ((0 : ℚ) > 0) := by norm_num
    simp [inflows, List.filter_cons, hzero, h1]
  · have h1 : ¬ ((0 : ℚ) < 0) := by norm_num
    simp [outflows, List.filter_cons, hzero, h1]

/-- Witness for C9 at the seed account and a concrete zero-amount
transaction. -/
theorem C9_zero_amount_transactions_witness :
    (netPerTransaction seedAccount
        = ((seedAccount.transactions.map (fun t => t.amount)).sum)
          / (max seedAccount.transactions.length 1 : ℕ)) ∧
    inflows ({ description := "Rounding", amount := 0, category := "Misc",
               occurredAt := "t0" } :: seedAccount.transactions)
      = inflows seedAccount.transactions ∧
    outflows ({ description := "Rounding", amount := 0, category := "Misc",
                occurredAt := "t0" } :: seedAccount.transactions)
      = outflows seedAccount.transactions ∧
    ({ description := "Rounding", amount := 0, category := "Misc",
       occurredAt := "t0" } :: seedAccount.transactions).length
      = seedAccount.transactions.length + 1 :=
  C9_zero_amount_transactions seedAccount
    { description := "Rounding", amount := 0, category := "Misc", occurredAt := "t0" } rfl

/-- C10: the rule-creation validator accepts a request with `accountId`
omitted (the field is optional), and a rule whose `accountId` is null is
attached to no account: it never appears in an account's materialized rule
list, so every account's forecast is unchanged by its presence in the
store. -/
theorem C10_unattached_rule_inert (ownerId name destination : String)
    (p : ℚ) (active : Option Bool) (hname : ¬ name.length < 3)
    (hp0 : 0 ≤ p) (hp1 : p ≤ 1)
    (r : AutopilotRule) (hr : r.accountId = none)
    (store : List AutopilotRule) (accId acctOwner : String) (balance : ℚ)
    (ts : List Transaction) (h : ℤ) :
    (createAutopilotRule ownerId none name p destination active).isOk = true ∧
    accountRules (r :: store) accId = accountRules store accId ∧
    forecastAccount (materializeAccount accId acctOwner balance ts (r :: store)) h
      = forecastAccount (materializeAccount accId acctOwner balance ts store) h := by
  have hfilter : accountRules (r :: store) accId = accountRules store accId := by
    simp [accountRules, List.filter_cons, hr]
  refine ⟨?_, hfilter, ?_⟩
  · unfold createAutopilotRule
    rw [if_neg hname, if_neg (not_not_intro hp0), if_neg (not_not_intro hp1)]
    rfl
  · unfold materializeAccount
    rw [hfilter]

/-- Witness for C10: a concrete null-account rule is accepted and inert for
a concrete account. -/
theorem C10_unattached_rule_inert_witness :
    (createAutopilotRule "u1" none "Vault Sweep" 1 "vault" none).isOk = true ∧
    accountRules
        ({ name := "Vault Sweep", percentage := 1, destination := "vault",
           active := true, ownerId := "u1", accountId := none } :: []) "a1"
      = accountRules [] "a1" ∧
    forecastAccount (materializeAccount "a1" "u1" 100 []
        ({ name := "Vault Sweep", percentage := 1, destination := "vault",
           active := true, ownerId := "u1", accountId := none } :: [])) 30
      = forecastAccount (materializeAccount "a1" "u1" 100 [] []) 30 :=
  C10_unattached_rule_inert "u1" "Vault Sweep" "vault" 1 none (by decide)
    (by norm_num) (by norm_num)
    { name := "Vault Sweep", percentage := 1, destination := "vault",
      active := true, ownerId := "u1", accountId := none }
    rfl [] "a1" "u1" 100 [] 30

end Finance
